import Mathlib

/-!
Shallow embedding of the shell stores of the inboxed.email client
(`src/stores/aiStore.ts`, `src/stores/accountStore.ts`,
`src/stores/emailStore.ts`, `src/stores/smartInboxStore.ts`, the RAG store
as laid out in `PLAN.md`, and the `SmartInbox` component), together with
theorems settling the frozen claims about them.

Zustand stores are modelled as explicit state records; a store action that
awaits a backend `invoke` is a pure function taking the backend's result as
an `Except String α` (a rejected promise carries its stringified error).
Handlers whose observable behaviour is *which backend commands they issue*
are additionally modelled as functions producing a list of `ShellCall`s in
issue order.  TypeScript `number` fields that only hold integers are `Int`;
the one fractional field (`priority_score`) is `Rat`.
-/

/-- Model status of the local LLM, from the `ModelStatus` union in
`aiStore.ts`. -/
inductive ModelStatus where
  | not_downloaded : ModelStatus
  | downloading (progress : Int) : ModelStatus
  | downloaded : ModelStatus
  | loading : ModelStatus
  | ready : ModelStatus
  | error (message : String) : ModelStatus
deriving DecidableEq, Repr

/-- `ModelInfo` from `aiStore.ts`. -/
structure ModelInfo where
  repo : String
  filename : String
  size_mb : Int
deriving DecidableEq, Repr

/-- `ModelOption` from `aiStore.ts`. -/
structure ModelOption where
  id : String
  name : String
  repo : String
  filename : String
  size_mb : Int
  description : String
  min_ram_gb : Int
  tokens_per_sec : String
deriving DecidableEq, Repr

/-- The state held by the zustand AI store (`aiStore.ts`). -/
structure AiState where
  modelStatus : ModelStatus
  downloadProgress : Int
  isModelLoaded : Bool
  isAiReady : Bool
  modelInfo : Option ModelInfo
  availableModels : List ModelOption
  selectedModelId : Option String
  error : Option String
deriving DecidableEq, Repr

/-- The initial AI store state (`useAiStore` initializer). -/
def initialAiState : AiState :=
  { modelStatus := ModelStatus.not_downloaded
    downloadProgress := 0
    isModelLoaded := false
    isAiReady := false
    modelInfo := none
    availableModels := []
    selectedModelId := none
    error := none }

/-- `aiStore.initAi`: sets status to loading, awaits `init_ai_fallback`
(whose outcome is the `Except` argument), then on success records the
backend's `modelLoaded` boolean and marks the AI ready; on a rejection it
records the error, an error status, and clears `isAiReady`.  Returns the
new state together with the boolean `initAi` resolves with. -/
def initAi (result : Except String Bool) (s : AiState) : AiState × Bool :=
  let s1 := { s with modelStatus := ModelStatus.loading, error := none }
  match result with
  | Except.ok modelLoaded =>
      ({ s1 with modelStatus := ModelStatus.ready
                 isModelLoaded := modelLoaded
                 isAiReady := true }, modelLoaded)
  | Except.error e =>
      ({ s1 with error := some e
                 modelStatus := ModelStatus.error e
                 isAiReady := false }, false)

/-- `aiStore.reset`: restores the status/progress/loaded/ready/error fields
to their initial values, leaving the remaining fields of the store alone. -/
def reset (s : AiState) : AiState :=
  { s with modelStatus := ModelStatus.not_downloaded
           downloadProgress := 0
           isModelLoaded := false
           isAiReady := false
           error := none }

/-- `EmailWithInsight` from `smartInboxStore.ts`.  The TypeScript `number`
field `priority_score` (a score in `[0,1]`) is modelled as a rational. -/
structure EmailWithInsight where
  id : String
  thread_id : String
  subject : String
  from_name : String
  from_email : String
  to_emails : List String
  date : Int
  snippet : String
  is_read : Bool
  is_starred : Bool
  has_attachments : Bool
  priority : String
  priority_score : Rat
  category : Option String
  summary : Option String
deriving DecidableEq, Repr

/-- `IndexingStatus` from `smartInboxStore.ts`. -/
structure IndexingStatus where
  is_indexing : Bool
  total_emails : Int
  processed_emails : Int
  last_indexed_at : Option Int
  error_message : Option String
deriving DecidableEq, Repr

/-- The state held by the zustand smart-inbox store (`smartInboxStore.ts`). -/
structure SmartInboxState where
  emails : List EmailWithInsight
  loading : Bool
  error : Option String
  indexingStatus : Option IndexingStatus
  indexingProgress : Int
deriving DecidableEq, Repr

/-- Initial smart-inbox store state (`useSmartInboxStore` initializer). -/
def initialSmartInboxState : SmartInboxState :=
  { emails := []
    loading := false
    error := none
    indexingStatus := none
    indexingProgress := 0 }

/-- A backend command issued by the shell through `invoke`, or a store
action awaited by a handler.  Constructors carry the arguments the source
passes. -/
inductive ShellCall where
  | callInitDatabase : ShellCall
  | callGetIndexingStatus : ShellCall
  | callGetSmartInbox (limit offset : Nat) : ShellCall
  | callResetIndexingStatus : ShellCall
  | callStartEmailIndexing (maxEmails : Nat) : ShellCall
  | callEmbedAllEmails : ShellCall
  | callFetchEmails (maxResults : Nat) (query : Option String) (forceRefresh : Bool) : ShellCall
  | callCheckModelDownloaded : ShellCall
  | callInitRag : ShellCall
  | callGetEmbeddingStatus : ShellCall
  | callAiWarmup : ShellCall
deriving DecidableEq, Repr

/-- `smartInboxStore.fetchSmartInbox`: sets `loading` and clears `error`,
awaits `get_smart_inbox` (outcome in `result`), then either stores the
returned list or records the stringified rejection, clearing `loading`
either way. -/
def fetchSmartInbox (result : Except String (List EmailWithInsight))
    (s : SmartInboxState) : SmartInboxState :=
  let s1 := { s with loading := true, error := none }
  match result with
  | Except.ok emails => { s1 with emails := emails, loading := false }
  | Except.error e => { s1 with error := some e, loading := false }

/-- `smartInboxStore.getEmailsByCategory`: same shape as `fetchSmartInbox`
over the `get_emails_by_category` command.  The `category` argument only
feeds the backend call. -/
def getEmailsByCategory (category : String)
    (result : Except String (List EmailWithInsight))
    (s : SmartInboxState) : SmartInboxState :=
  let s1 := { s with loading := true, error := none }
  let _ := category
  match result with
  | Except.ok emails => { s1 with emails := emails, loading := false }
  | Except.error e => { s1 with error := some e, loading := false }

/-- `smartInboxStore.searchEmails`: same shape over `search_smart_emails`. -/
def searchEmails (query : String)
    (result : Except String (List EmailWithInsight))
    (s : SmartInboxState) : SmartInboxState :=
  let s1 := { s with loading := true, error := none }
  let _ := query
  match result with
  | Except.ok emails => { s1 with emails := emails, loading := false }
  | Except.error e => { s1 with error := some e, loading := false }

/-- The observable outcome the spec requires of a query action, written
from the claim's words: on success the returned list, `loading = false`
and no error; on failure the previous email list untouched,
`loading = false` and the stringified error.  (Spec-side definition, to be
compared with the source-side actions.) -/
def queryOutcomeSpec (result : Except String (List EmailWithInsight))
    (oldEmails : List EmailWithInsight) :
    List EmailWithInsight × Bool × Option String :=
  match result with
  | Except.ok l => (l, false, none)
  | Except.error e => (oldEmails, false, some e)

/-- The `(emails, loading, error)` observables of a smart-inbox state. -/
def queryObservables (s : SmartInboxState) :
    List EmailWithInsight × Bool × Option String :=
  (s.emails, s.loading, s.error)

/-- Outcome of `smartInboxStore.startIndexing`: the state left behind, the
backend calls issued in order, and the error the action rethrows (`none`
when it resolves). -/
structure StartIndexingOutcome where
  state : SmartInboxState
  calls : List ShellCall
  thrown : Option String
deriving DecidableEq, Repr

/-- The error carried by an `Except`, if any. -/
def errOption : Except String Unit → Option String
  | Except.ok _ => none
  | Except.error e => some e

/-- `smartInboxStore.startIndexing`: clears `error`, then runs the AI
warm-up block (`initAi` when not ready, then `checkModelStatus`) inside an
inner try/catch — modelled as the single `callAiWarmup` step whose outcome
`aiStep` is swallowed either way — and then awaits
`start_email_indexing maxEmails` (outcome `idx`).  Only a rejection of
that last call is stored in `error` and rethrown. -/
def startIndexing (maxEmails : Nat) (aiStep : Except String Unit)
    (idx : Except String Unit) (s : SmartInboxState) : StartIndexingOutcome :=
  let s1 := { s with error := none }
  -- inner try/catch: a throw from the warm-up is logged and swallowed,
  -- so both branches continue identically
  let aiCalls : List ShellCall :=
    match aiStep with
    | Except.ok _ => [ShellCall.callAiWarmup]
    | Except.error _ => [ShellCall.callAiWarmup]
  match idx with
  | Except.ok _ =>
      { state := s1
        calls := aiCalls ++ [ShellCall.callStartEmailIndexing maxEmails]
        thrown := none }
  | Except.error e =>
      { state := { s1 with error := some e }
        calls := aiCalls ++ [ShellCall.callStartEmailIndexing maxEmails]
        thrown := some e }

/-- Claim C7: whenever `initAi` completes without the underlying
`init_ai_fallback` call rejecting, the store ends with `isAiReady = true`
and the call returns the backend's `modelLoaded` boolean verbatim (also
when it is `false`); when the call rejects, `isAiReady` is set to `false`
and `initAi` returns `false`. -/
theorem initAi_ready_iff_no_throw (r : Except String Bool) (s : AiState) :
    (∀ b : Bool, r = Except.ok b →
      (initAi r s).1.isAiReady = true ∧ (initAi r s).2 = b) ∧
    (∀ e : String, r = Except.error e →
      (initAi r s).1.isAiReady = false ∧ (initAi r s).2 = false) := by
  constructor
  · intro b hb
    subst hb
    exact ⟨rfl, rfl⟩
  · intro e he
    subst he
    exact ⟨rfl, rfl⟩

/-- Witness for C7 at concrete inputs: the fallback path (`modelLoaded =
false`) still ends ready and returns `false`, and a rejected init ends not
ready and returns `false`. -/
theorem initAi_ready_iff_no_throw_witness :
    ((initAi (Except.ok false) initialAiState).1.isAiReady = true ∧
      (initAi (Except.ok false) initialAiState).2 = false) ∧
    ((initAi (Except.error "boom") initialAiState).1.isAiReady = false ∧
      (initAi (Except.error "boom") initialAiState).2 = false) :=
  ⟨(initAi_ready_iff_no_throw (Except.ok false) initialAiState).1 false rfl,
   (initAi_ready_iff_no_throw (Except.error "boom") initialAiState).2 "boom" rfl⟩

/-- Claim C10: `aiStore.reset` restores exactly
`{modelStatus, downloadProgress, isModelLoaded, isAiReady, error}` to their
initial values and leaves `modelInfo`, `availableModels` and
`selectedModelId` unchanged. -/
theorem reset_restores_and_frames (s : AiState) :
    (reset s).modelStatus = ModelStatus.not_downloaded ∧
    (reset s).downloadProgress = 0 ∧
    (reset s).isModelLoaded = false ∧
    (reset s).isAiReady = false ∧
    (reset s).error = none ∧
    (reset s).modelInfo = s.modelInfo ∧
    (reset s).availableModels = s.availableModels ∧
    (reset s).selectedModelId = s.selectedModelId := by
  refine ⟨rfl, rfl, rfl, rfl, rfl, rfl, rfl, rfl⟩

/-- Claim C9: each query action of the smart-inbox store
(`fetchSmartInbox`, `getEmailsByCategory`, `searchEmails`) leaves the
stored email list untouched when the backend rejects, with `loading =
false` and `error` holding the failure string, and on success replaces
`emails` with the returned list, with `loading = false` and `error =
none` — i.e. each action's observables equal the spec-side outcome. -/
theorem query_actions_match_spec (r : Except String (List EmailWithInsight))
    (c q : String) (s : SmartInboxState) :
    queryObservables (fetchSmartInbox r s) = queryOutcomeSpec r s.emails ∧
    queryObservables (getEmailsByCategory c r s) = queryOutcomeSpec r s.emails ∧
    queryObservables (searchEmails q r s) = queryOutcomeSpec r s.emails := by
  cases r <;>
    simp [queryObservables, queryOutcomeSpec, fetchSmartInbox,
      getEmailsByCategory, searchEmails]

/-- Claim C2: `startIndexing` always issues `start_email_indexing` with the
given `maxEmails`, also when the AI warm-up step throws (the inner catch
swallows it); the stored `error` and the rethrown exception are exactly the
rejection of the `start_email_indexing` call itself. -/
theorem startIndexing_survives_ai_failure (maxEmails : Nat)
    (aiStep idx : Except String Unit) (s : SmartInboxState) :
    ShellCall.callStartEmailIndexing maxEmails ∈
      (startIndexing maxEmails aiStep idx s).calls ∧
    (startIndexing maxEmails aiStep idx s).thrown = errOption idx ∧
    (startIndexing maxEmails aiStep idx s).state.error = errOption idx := by
  cases aiStep <;> cases idx <;>
    simp [startIndexing, errOption]

/-- An event of the `indexing:*` topic family, as listened to in
`smartInboxStore.setupIndexingListeners`. -/
inductive IndexingEvent where
  | started : IndexingEvent
  | progress (percent : Int) : IndexingEvent
  | complete : IndexingEvent
  | failed (message : String) : IndexingEvent
deriving DecidableEq, Repr

/-- The `indexing:started` listener: resets the stored progress to 0.  (It
also fires a non-awaited `getIndexingStatus`; that call is part of the
handler's call trace, not of its synchronous state change.) -/
def onIndexingStarted (s : SmartInboxState) : SmartInboxState :=
  { s with indexingProgress := 0 }

/-- The `indexing:progress` listener: adopts the event's percent payload
verbatim as the stored progress. -/
def onIndexingProgress (percent : Int) (s : SmartInboxState) : SmartInboxState :=
  { s with indexingProgress := percent }

/-- The synchronous state change of the `indexing:complete` listener: sets
the stored progress to 100 (the awaited refresh and auto-embed calls are
modelled by `indexingCompleteCalls`). -/
def onIndexingComplete (s : SmartInboxState) : SmartInboxState :=
  { s with indexingProgress := 100 }

/-- The `indexing:error` listener: records the failure message. -/
def onIndexingError (message : String) (s : SmartInboxState) : SmartInboxState :=
  { s with error := some ("Indexing failed: " ++ message) }

/-- One step of the indexing listeners on the store state. -/
def indexingEventStep (s : SmartInboxState) (e : IndexingEvent) : SmartInboxState :=
  match e with
  | IndexingEvent.started => onIndexingStarted s
  | IndexingEvent.progress p => onIndexingProgress p s
  | IndexingEvent.complete => onIndexingComplete s
  | IndexingEvent.failed m => onIndexingError m s

/-- The sequence of stored `indexingProgress` values after each event of a
run, starting from store state `s`. -/
def storedProgressTrace (s : SmartInboxState) : List IndexingEvent → List Int
  | [] => []
  | e :: evs =>
      (indexingEventStep s e).indexingProgress ::
        storedProgressTrace (indexingEventStep s e) evs

/-- The event sequence of one indexing run as observed by the shell:
`indexing:started`, then the `indexing:progress` percents, then
`indexing:complete`. -/
def indexingRun (ps : List Int) : List IndexingEvent :=
  IndexingEvent.started ::
    (ps.map IndexingEvent.progress ++ [IndexingEvent.complete])

/-- The stored values over the progress-then-complete suffix of a run do
not depend on the incoming state and are the percents followed by 100. -/
theorem storedProgressTrace_progress_complete (ps : List Int) :
    ∀ s : SmartInboxState,
      storedProgressTrace s (ps.map IndexingEvent.progress ++
        [IndexingEvent.complete]) = ps ++ [100] := by
  induction ps with
  | nil =>
      intro s
      simp [storedProgressTrace, indexingEventStep, onIndexingComplete]
  | cons p t ih =>
      intro s
      show p :: storedProgressTrace _ _ = p :: (t ++ [100])
      exact congrArg (fun l => p :: l) (ih _)

/-- The stored values over a whole run are `0`, the percents, then `100`. -/
theorem storedProgressTrace_run (s : SmartInboxState) (ps : List Int) :
    storedProgressTrace s (indexingRun ps) = 0 :: ps ++ [100] := by
  show (0 : Int) :: storedProgressTrace _ _ = 0 :: (ps ++ [100])
  exact congrArg (fun l => (0 : Int) :: l)
    (storedProgressTrace_progress_complete ps _)

/-- Appending the final 100 preserves a non-decreasing chain whose entries
are at most 100. -/
theorem chain_append_hundred (ps : List Int)
    (h : List.Chain' (· ≤ ·) ps) (hb : ∀ p ∈ ps, p ≤ 100) :
    List.Chain' (· ≤ ·) (ps ++ [100]) := by
  induction ps with
  | nil => simp
  | cons p t ih =>
      cases t with
      | nil =>
          refine List.chain'_cons.2 ⟨hb p (by simp), ?_⟩
          simp
      | cons q t' =>
          refine List.chain'_cons.2 ⟨(List.chain'_cons.1 h).1, ?_⟩
          exact ih (List.chain'_cons.1 h).2 (fun x hx => hb x (by simp [hx]))

/-- Prepending the initial 0 preserves a non-decreasing chain whose entries
are non-negative. -/
theorem chain_cons_zero (ps : List Int)
    (h : List.Chain' (· ≤ ·) (ps ++ [100]))
    (hb : ∀ p ∈ ps, 0 ≤ p) :
    List.Chain' (· ≤ ·) (0 :: ps ++ [100]) := by
  cases ps with
  | nil =>
      refine List.chain'_cons.2 ⟨by norm_num, by simp⟩
  | cons p t =>
      exact List.chain'_cons.2 ⟨hb p (by simp), h⟩

/-- Claim C5: over a run `indexing:started`, `indexing:progress p₁ … pₙ`,
`indexing:complete` whose progress payloads are non-decreasing integers in
`[0,100]`, the stored progress values are non-decreasing and end at 100;
moreover the progress listener adopts its payload verbatim, the started
listener resets the stored progress to 0, and the complete listener leaves
`indexingProgress = 100`. -/
theorem indexing_progress_monotone (s : SmartInboxState) (ps : List Int)
    (hmono : List.Chain' (· ≤ ·) ps)
    (hbound : ∀ p ∈ ps, 0 ≤ p ∧ p ≤ 100) :
    List.Chain' (· ≤ ·) (storedProgressTrace s (indexingRun ps)) ∧
    (storedProgressTrace s (indexingRun ps)).getLast? = some 100 ∧
    (∀ p : Int, (onIndexingProgress p s).indexingProgress = p) ∧
    (onIndexingStarted s).indexingProgress = 0 ∧
    (onIndexingComplete s).indexingProgress = 100 := by
  rw [storedProgressTrace_run]
  refine ⟨?_, ?_, fun p => rfl, rfl, rfl⟩
  · exact chain_cons_zero ps
      (chain_append_hundred ps hmono (fun p hp => (hbound p hp).2))
      (fun p hp => (hbound p hp).1)
  · show ((0 :: ps) ++ [(100 : Int)]).getLast? = some 100
    exact List.getLast?_concat _

/-- Witness for C5 at the concrete run with payloads `[10, 50, 90]` from
the initial store state. -/
theorem indexing_progress_monotone_witness :
    List.Chain' (· ≤ ·)
      (storedProgressTrace initialSmartInboxState (indexingRun [10, 50, 90])) ∧
    (storedProgressTrace initialSmartInboxState
      (indexingRun [10, 50, 90])).getLast? = some 100 :=
  ⟨(indexing_progress_monotone initialSmartInboxState [10, 50, 90]
      (by norm_num [List.chain'_cons])
      (by norm_num [List.forall_mem_cons])).1,
   (indexing_progress_monotone initialSmartInboxState [10, 50, 90]
      (by norm_num [List.chain'_cons])
      (by norm_num [List.forall_mem_cons])).2.1⟩

/-- The store actions awaited, in order, by the `indexing:complete`
listener of `setupIndexingListeners`: refresh the indexing status, refresh
the smart-inbox list (store defaults `limit = 500`, `offset = 0`), then —
only when `ragStore.isInitialized` is true — `embedAllEmails`.  Each step
is wrapped in its own try/catch, so every step is reached. -/
def indexingCompleteCalls (ragInitialized : Bool) : List ShellCall :=
  [ShellCall.callGetIndexingStatus, ShellCall.callGetSmartInbox 500 0] ++
    (if ragInitialized then [ShellCall.callEmbedAllEmails] else [])

/-- Claim C1: the `indexing:complete` handler first refreshes the indexing
status and the smart-inbox list, and invokes `embedAllEmails` if and only
if the RAG store reports itself initialized. -/
theorem autoEmbed_iff_rag_initialized (ragInitialized : Bool) :
    (indexingCompleteCalls ragInitialized).take 2 =
      [ShellCall.callGetIndexingStatus, ShellCall.callGetSmartInbox 500 0] ∧
    (ShellCall.callEmbedAllEmails ∈ indexingCompleteCalls ragInitialized ↔
      ragInitialized = true) := by
  cases ragInitialized <;> simp [indexingCompleteCalls]

/-- `smartInboxStore.resetIndexingStatus`: awaits `reset_indexing_status`
(outcome `resetOk`) and, when it succeeded, re-fetches the indexing status;
a rejection is only logged. -/
def resetIndexingStatusCalls (resetOk : Bool) : List ShellCall :=
  ShellCall.callResetIndexingStatus ::
    (if resetOk then [ShellCall.callGetIndexingStatus] else [])

/-- The backend calls issued in order by the `init` effect of the
`SmartInbox` component: initialize the database, fetch the indexing status
(yielding `fetched`), reset a stale running flag when the fetched status
says `is_indexing`, fetch the smart inbox when no emails are loaded yet,
check whether the embedding model is downloaded, auto-init RAG when it is
downloaded but not yet initialized, and fetch the embedding status when
RAG is initialized or downloaded. -/
def smartInboxInitCalls (fetched : Option IndexingStatus) (resetOk : Bool)
    (emailsEmpty ragDownloaded ragInitialized : Bool) : List ShellCall :=
  [ShellCall.callInitDatabase, ShellCall.callGetIndexingStatus] ++
    (match fetched with
     | some st => if st.is_indexing then resetIndexingStatusCalls resetOk else []
     | none => []) ++
    (if emailsEmpty then [ShellCall.callGetSmartInbox 500 0] else []) ++
    [ShellCall.callCheckModelDownloaded] ++
    (if ragDownloaded && !ragInitialized then [ShellCall.callInitRag] else []) ++
    (if ragInitialized || ragDownloaded then [ShellCall.callGetEmbeddingStatus] else [])

/-- Claim C6: whenever the indexing status fetched at Smart Inbox startup
reports `is_indexing = true` and the reset command succeeds, the startup
call sequence contains `reset_indexing_status` followed by a re-fetch of
the indexing status, so the stale running flag does not persist. -/
theorem stale_indexing_reset (st : IndexingStatus)
    (emailsEmpty ragDownloaded ragInitialized : Bool)
    (h : st.is_indexing = true) :
    List.Sublist [ShellCall.callResetIndexingStatus, ShellCall.callGetIndexingStatus]
      (smartInboxInitCalls (some st) true emailsEmpty ragDownloaded ragInitialized) := by
  simp only [smartInboxInitCalls, resetIndexingStatusCalls, h, if_true]
  cases emailsEmpty <;> cases ragDownloaded <;> cases ragInitialized <;> simp

/-- Witness for C6 at a concrete stale status. -/
theorem stale_indexing_reset_witness :
    List.Sublist [ShellCall.callResetIndexingStatus, ShellCall.callGetIndexingStatus]
      (smartInboxInitCalls
        (some { is_indexing := true, total_emails := 0, processed_emails := 0,
                last_indexed_at := none, error_message := none })
        true true false false) :=
  stale_indexing_reset
    { is_indexing := true, total_emails := 0, processed_emails := 0,
      last_indexed_at := none, error_message := none }
    true false false rfl

/-- The `email:new_mail` event payload (`NewMailEvent` in the store that
registers `setupNewMailListener`). -/
structure NewMailEvent where
  account_id : String
  folder : String
deriving DecidableEq, Repr

/-- The backend calls issued by the `email:new_mail` listener
(`setupNewMailListener`): it logs the payload and calls
`fetchEmails(50, undefined, true)`, i.e. a forced refresh of the classic
email list bounded by 50, regardless of the event's account and folder. -/
def newMailHandlerCalls (e : NewMailEvent) : List ShellCall :=
  let _ := e
  [ShellCall.callFetchEmails 50 none true]

/-- Whether a shell call starts an email indexing pass
(`start_email_indexing`). -/
def startsIndexing : ShellCall → Bool
  | ShellCall.callStartEmailIndexing _ => true
  | _ => false

/-- Counterexample to claim C3 at the concrete event
`{account_id := "acct-1", folder := "INBOX"}`: the new-mail listener issues
exactly one call, a forced `fetch_emails` bounded by 50, and no call of the
handler starts an indexing pass. -/
theorem newMail_no_indexing_counterexample :
    newMailHandlerCalls { account_id := "acct-1", folder := "INBOX" } =
      [ShellCall.callFetchEmails 50 none true] ∧
    (newMailHandlerCalls { account_id := "acct-1", folder := "INBOX" }).all
      (fun c => !(startsIndexing c)) = true := by
  refine ⟨rfl, rfl⟩

/-- Claim C3 as amended: on every new-mail push notification the shell
reacts by force-refreshing the classic email list with a fetch bounded by
50 (`fetchEmails(50, undefined, true)`); it does not enqueue an indexing
pass, and it ignores the event's account and folder. -/
theorem newMail_refreshes_email_list (e : NewMailEvent) :
    newMailHandlerCalls e = [ShellCall.callFetchEmails 50 none true] ∧
    (newMailHandlerCalls e).all (fun c => !(startsIndexing c)) = true := by
  refine ⟨rfl, rfl⟩

/-- `Account` from `accountStore.ts`. -/
structure Account where
  id : String
  email : String
  display_name : String
  provider : String
  imap_host : String
  imap_port : Int
  smtp_host : String
  smtp_port : Int
  auth_type : String
  is_active : Bool
  created_at : Int
  last_synced_at : Option Int
deriving DecidableEq, Repr

/-- The state held by the zustand account store (`accountStore.ts`). -/
structure AccountState where
  accounts : List Account
  activeAccountId : Option String
  loading : Bool
  error : Option String
deriving DecidableEq, Repr

/-- Initial account store state (`useAccountStore` initializer). -/
def initialAccountState : AccountState :=
  { accounts := [], activeAccountId := none, loading := false, error := none }

/-- JavaScript `x || null` on an optional string: `undefined` and the falsy
empty string both coerce to `null`. -/
def jsStringOrNull : Option String → Option String
  | some str => if str = "" then none else some str
  | none => none

/-- `accountStore.fetchAccounts`: sets `loading` and clears `error`, awaits
`list_accounts` (outcome `result`); on success stores the list and sets
`activeAccountId` to `accounts.find(a => a.is_active)?.id || null`; on a
rejection records the error.  `loading` is cleared either way. -/
def fetchAccounts (result : Except String (List Account))
    (s : AccountState) : AccountState :=
  let s1 := { s with loading := true, error := none }
  match result with
  | Except.ok accounts =>
      { s1 with accounts := accounts
                activeAccountId :=
                  jsStringOrNull ((accounts.find? (fun a => a.is_active)).map
                    (fun a => a.id))
                loading := false }
  | Except.error e => { s1 with error := some e, loading := false }

/-- The active-account invariant of the data model: at most one account in
the list has `is_active = true`. -/
def atMostOneActive (accounts : List Account) : Prop :=
  ∀ a ∈ accounts, ∀ b ∈ accounts,
    a.is_active = true → b.is_active = true → a = b

instance (accounts : List Account) : Decidable (atMostOneActive accounts) := by
  unfold atMostOneActive
  infer_instance

/-- An account whose `id` is the empty string — a value the active-account
invariant does not exclude. -/
def emptyIdAccount : Account :=
  { id := "", email := "a@b.c", display_name := "A", provider := "custom",
    imap_host := "imap.b.c", imap_port := 993, smtp_host := "smtp.b.c",
    smtp_port := 465, auth_type := "app_password", is_active := true,
    created_at := 0, last_synced_at := none }

/-- Counterexample to claim C8: the single-element account list
`[emptyIdAccount]` satisfies the active-account invariant and has a unique
account with `is_active = true`, yet after a successful `fetchAccounts` the
stored `activeAccountId` is `none`, not that account's id — JavaScript's
`active?.id || null` coerces the falsy empty id to `null`. -/
theorem fetchAccounts_empty_id_counterexample :
    atMostOneActive [emptyIdAccount] ∧
    emptyIdAccount.is_active = true ∧
    (fetchAccounts (Except.ok [emptyIdAccount])
        initialAccountState).activeAccountId = none ∧
    (fetchAccounts (Except.ok [emptyIdAccount])
        initialAccountState).activeAccountId ≠ some emptyIdAccount.id := by
  refine ⟨by decide, rfl, rfl, by decide⟩

/-- Claim C8 as amended: after a successful `fetchAccounts` over a list
satisfying the active-account invariant in which every account id is
non-empty, `activeAccountId` equals the id of the unique account with
`is_active = true` when one exists, and is `none` when no account is
active.  (The non-empty-id proviso is forced by the `|| null` coercion.) -/
theorem fetchAccounts_tracks_active (accounts : List Account)
    (s : AccountState)
    (hinv : atMostOneActive accounts)
    (hids : ∀ a ∈ accounts, a.id ≠ "") :
    (∀ a ∈ accounts, a.is_active = true →
      (fetchAccounts (Except.ok accounts) s).activeAccountId = some a.id) ∧
    ((∀ a ∈ accounts, a.is_active = false) →
      (fetchAccounts (Except.ok accounts) s).activeAccountId = none) := by
  constructor
  · intro a ha hact
    have hfind : ∃ b, accounts.find? (fun x => x.is_active) = some b := by
      cases hb : accounts.find? (fun x => x.is_active) with
      | some b => exact ⟨b, rfl⟩
      | none =>
          exact absurd hact (by simpa using List.find?_eq_none.1 hb a ha)
    obtain ⟨b, hb⟩ := hfind
    have hbact : b.is_active = true := by simpa using List.find?_some hb
    have hbmem : b ∈ accounts := List.mem_of_find?_eq_some hb
    have hba : b = a := hinv b hbmem a ha hbact hact
    show jsStringOrNull ((accounts.find? (fun x => x.is_active)).map
      (fun x => x.id)) = some a.id
    rw [hb, hba]
    simp only [Option.map_some', jsStringOrNull]
    rw [if_neg (hids a ha)]
  · intro hnone
    have hfind : accounts.find? (fun x => x.is_active) = none :=
      List.find?_eq_none.2 (fun x hx => by simp [hnone x hx])
    show jsStringOrNull ((accounts.find? (fun x => x.is_active)).map
      (fun x => x.id)) = none
    rw [hfind]
    rfl

/-- An ordinary account with a non-empty id, used as witness data. -/
def sampleAccount : Account :=
  { id := "acct-1", email := "me@example.com", display_name := "Me",
    provider := "imap_a", imap_host := "imap.example.com", imap_port := 993,
    smtp_host := "smtp.example.com", smtp_port := 587,
    auth_type := "oauth", is_active := true, created_at := 10,
    last_synced_at := some 20 }

/-- Witness for the amended C8 at the concrete list `[sampleAccount]`. -/
theorem fetchAccounts_tracks_active_witness :
    (fetchAccounts (Except.ok [sampleAccount])
      initialAccountState).activeAccountId = some sampleAccount.id :=
  (fetchAccounts_tracks_active [sampleAccount] initialAccountState
    (by decide) (by decide)).1 sampleAccount (by simp) rfl

/-- `EmbeddingStatus` from the RAG store (`PLAN.md` layout of
`ragStore.ts`). -/
structure EmbeddingStatus where
  is_embedding : Bool
  total_emails : Int
  embedded_emails : Int
  current_model : Option String
  last_embedded_at : Option Int
  error_message : Option String
deriving DecidableEq, Repr

/-- `SearchResult` from the RAG store.  The source field `from` is renamed
`from_addr` because `from` is a reserved word in Lean. -/
structure SearchResult where
  email_id : String
  similarity : Rat
  subject : Option String
  from_addr : Option String
  snippet : Option String
deriving DecidableEq, Repr

/-- The `embedding:progress` event payload (`EmbeddingProgress` in the RAG
store): the total number of messages to embed, the number embedded so far,
and the id of the message currently being embedded. -/
structure EmbeddingProgress where
  total : Int
  embedded : Int
  current_email_id : Option String
deriving DecidableEq, Repr

/-- The state held by the zustand RAG store. -/
structure RagState where
  isInitialized : Bool
  isEmbedding : Bool
  embeddingProgress : Option EmbeddingProgress
  embeddingStatus : Option EmbeddingStatus
  searchResults : List SearchResult
  error : Option String
deriving DecidableEq, Repr

/-- Initial RAG store state (`useRagStore` initializer). -/
def initialRagState : RagState :=
  { isInitialized := false, isEmbedding := false, embeddingProgress := none,
    embeddingStatus := none, searchResults := [], error := none }

/-- The `embedding:progress` listener registered by
`ragStore.embedAllEmails`: stores the event payload as the new
`embeddingProgress`, touching nothing else. -/
def onEmbeddingProgress (payload : EmbeddingProgress) (s : RagState) : RagState :=
  { s with embeddingProgress := payload }

/-- Claim C4: the `embedding:progress` payload is a typed record carrying
exactly the three fields total / done-count / current message id — two
`EmbeddingProgress` values agreeing on those fields are equal — and the
progress listener stores the received record unchanged (and leaves the
rest of the store alone). -/
theorem embeddingProgress_stored_unchanged (p q : EmbeddingProgress)
    (s : RagState) :
    (onEmbeddingProgress p s).embeddingProgress = some p ∧
    (onEmbeddingProgress p s).isInitialized = s.isInitialized ∧
    (onEmbeddingProgress p s).isEmbedding = s.isEmbedding ∧
    (onEmbeddingProgress p s).error = s.error ∧
    (p.total = q.total → p.embedded = q.embedded →
      p.current_email_id = q.current_email_id → p = q) := by
  refine ⟨rfl, rfl, rfl, rfl, ?_⟩
  intro h1 h2 h3
  cases p
  cases q
  simp_all

/-- A concrete `embedding:progress` payload used as witness data. -/
def sampleEmbeddingProgress : EmbeddingProgress :=
  { total := 7, embedded := 3, current_email_id := some "m-3" }

/-- Witness for C4 at a concrete payload and state. -/
theorem embeddingProgress_stored_unchanged_witness :
    (onEmbeddingProgress sampleEmbeddingProgress
        initialRagState).embeddingProgress = some sampleEmbeddingProgress ∧
    sampleEmbeddingProgress = sampleEmbeddingProgress :=
  ⟨(embeddingProgress_stored_unchanged sampleEmbeddingProgress
      sampleEmbeddingProgress initialRagState).1,
   (embeddingProgress_stored_unchanged sampleEmbeddingProgress
      sampleEmbeddingProgress initialRagState).2.2.2.2 rfl rfl rfl⟩
